import Mathlib

/-!
Verification development for the vehicle-lifecycle chaincode
(`Server_Side/blockchain/assets/vehicles/vehicle/owner/CRUD/read.js`,
embedded Go chaincode `package main`).

The chaincode is shallowly embedded: the ledger (`shim.ChaincodeStub`)
becomes an association list of key/value entries threaded through each
operation, handlers become Lean functions returning the new ledger plus
an `Except String` outcome mirroring the Go `([]byte, error)` results,
and the external identity service is an oracle parameter.

Notes on source fidelity, recorded once here:
* the source's `Product` struct declares fields `Product_Id .. Sales_contract`
  while the transition handlers read and write `Status`, `Scrapped`, `Make`,
  `Name`, `Reg`, `VIN`, `Colour`, which the struct does not declare (the
  declared field is `State`).  The embedding uses the merged field set the
  handlers actually operate on, with `Status` playing the declared `State`.
* product identifiers are carried as `Int`, following the index and
  allocator code (`Product_Id_Holder.ProductIds []int`, `usedIds []int`,
  comparison with the random `int` draw); the ledger key of a product is
  the decimal string of its id.
* `float32`/`byte` payload fields (`Price`, `Width`, ..., `Sales_contract`)
  are never inspected by any operation, so they are carried as strings,
  matching the quoted values the creation path writes into its JSON.
-/

namespace Chaincode

/-- Decidable equality for `Except`, used to evaluate concrete outcomes. -/
instance {ε α : Type} [DecidableEq ε] [DecidableEq α] : DecidableEq (Except ε α)
  | .ok x, .ok y =>
    if h : x = y then .isTrue (by rw [h])
    else .isFalse (by intro hc; cases hc; exact h rfl)
  | .ok _, .error _ => .isFalse (by intro hc; cases hc)
  | .error _, .ok _ => .isFalse (by intro hc; cases hc)
  | .error e, .error f =>
    if h : e = f then .isTrue (by rw [h])
    else .isFalse (by intro hc; cases hc; exact h rfl)

/-- Participant types (source constants, lines `const GOVERNMENT = 1` ...). -/
def GOVERNMENT : Int := 1

def MANUFACTURER : Int := 2

def BUYER : Int := 3

def MANUFACTURER_BANK : Int := 4

def BUYER_BANK : Int := 5

def SHIPPER : Int := 6

def PRODUCT : Int := 7

/-- Status types (source constants `STATE_SALESCONTRACT = 0` ...). -/
def STATE_SALESCONTRACT : Int := 0

def STATE_ACCREDITIVE : Int := 1

def STATE_CHECK_ACCREDITIVE : Int := 2

def STATE_MANUFACTURE : Int := 3

def STATE_SHIPPING : Int := 4

def STATE_PAYMENT : Int := 5

def STATE_INUSE : Int := 6

def STATE_SCRAPPED : Int := 7

/-- The asset record (source `type Product struct` merged with the fields the
transition handlers reference; see the file header note). -/
structure Product where
  Product_Id : Int
  CheckId : String
  Manufacturer : String
  Owner : String
  Origin : String
  Current_location : String
  Destination : String
  Route : String
  Status : Int
  Price : String
  Currency : String
  Width : String
  Height : String
  Weight : String
  Sales_contract : String
  Scrapped : Bool
  Make : String
  Name : String
  Reg : String
  VIN : Int
  Colour : String
deriving Repr, DecidableEq

/-- A ledger value: a marshalled `Product`, a marshalled `Product_Id_Holder`
(the id index), or opaque bytes such as the peer address. -/
inductive LVal where
  | prod (p : Product)
  | holder (pids : List Int)
  | str (s : String)
deriving Repr, DecidableEq

/-- The ledger exposed by `shim.ChaincodeStub`: `entries` is the key/value
store (a put conses, a get takes the most recent binding), and `failing`
lists the keys on which `PutState` reports a write error. -/
structure Stub where
  entries : List (String × LVal)
  failing : List String
deriving Repr, DecidableEq

/-- `stub.GetState key`: the most recent value put at `key`, if any. -/
def Stub.get (st : Stub) (k : String) : Option LVal :=
  match st.entries.find? (fun e => e.fst == k) with
  | some e => some e.snd
  | none => none

/-- `stub.PutState key value`: errors on a failing key, otherwise records the
new binding. -/
def Stub.put (st : Stub) (k : String) (v : LVal) : Except String Stub :=
  if st.failing.contains k then .error "Error writing state"
  else .ok { st with entries := (k, v) :: st.entries }

/-- Source `retrieve_product`: `GetState` then `json.Unmarshal` into a
`Product`; a missing record (nil bytes) or a non-product record fails to
unmarshal, giving the corrupt-record error. -/
def retrieve_product (st : Stub) (productId : String) : Except String Product :=
  match st.get productId with
  | some (.prod p) => .ok p
  | some _ => .error "RETRIEVE_PRODUCT: Corrupt product record"
  | none => .error "RETRIEVE_PRODUCT: Corrupt product record"

/-- Source `save_changes`: marshal the product and `PutState` it under its
own id; on a write error the ledger is unchanged and the error is reported. -/
def save_changes (st : Stub) (product : Product) : Stub × Except String Unit :=
  match st.put (toString product.Product_Id) (.prod product) with
  | .ok st' => (st', .ok ())
  | .error _ => (st, .error "Error storing vehicle record")

/-- The shared epilogue of every transition handler: `save_changes` the
mutated product; on a write error report the handler's saving-error
message with the ledger unchanged. -/
def commitOrFail (st : Stub) (product : Product) (failMsg : String) :
    Stub × Except String Unit :=
  match save_changes st product with
  | (st', .ok _) => (st', .ok ())
  | (_, .error _) => (st, .error failMsg)

/-- Source `manufacturer_to_buyer` (lines 636-664). -/
def manufacturer_to_buyer (st : Stub) (v : Product) (caller : String)
    (caller_affiliation : Int) (recipient_name : String)
    (recipient_affiliation : Int) : Stub × Except String Unit :=
  if v.Status = STATE_SALESCONTRACT ∧ v.Owner = caller ∧
      caller_affiliation = GOVERNMENT ∧ recipient_affiliation = MANUFACTURER ∧
      v.Scrapped = false then
    commitOrFail st { v with Owner := recipient_name, Status := STATE_ACCREDITIVE } "Error saving changes"
  else
    (st, .error "Permission Denied")

/-- Source `manufacturer_to_bank` (lines 669-702), including its leading
fully-defined check that fires before the permission guard. -/
def manufacturer_to_bank (st : Stub) (product : Product) (caller : String)
    (caller_affiliation : Int) (recipient_name : String)
    (recipient_affiliation : Int) : Stub × Except String Unit :=
  if product.Make = "UNDEFINED" ∨ product.Name = "UNDEFINED" ∨
      product.Reg = "UNDEFINED" ∨ product.Colour = "UNDEFINED" ∨
      product.VIN = 0 then
    (st, .error "Car not fully defined")
  else if product.Status = STATE_ACCREDITIVE ∧ product.Owner = caller ∧
      caller_affiliation = MANUFACTURER ∧ recipient_affiliation = BUYER ∧
      product.Scrapped = false then
    commitOrFail st { product with Owner := recipient_name, Status := STATE_CHECK_ACCREDITIVE } "Error saving changes"
  else
    (st, .error "Permission denied")

/-- Source `buyer_to_buyer` (lines 707-731). -/
def buyer_to_buyer (st : Stub) (v : Product) (caller : String)
    (caller_affiliation : Int) (recipient_name : String)
    (recipient_affiliation : Int) : Stub × Except String Unit :=
  if v.Status = STATE_CHECK_ACCREDITIVE ∧ v.Owner = caller ∧
      caller_affiliation = BUYER ∧ recipient_affiliation = BUYER ∧
      v.Scrapped = false then
    commitOrFail st { v with Owner := recipient_name } "Error saving changes"
  else
    (st, .error "Permission denied")

/-- Source `private_to_lease_company` (lines 736-757). -/
def private_to_lease_company (st : Stub) (v : Product) (caller : String)
    (caller_affiliation : Int) (recipient_name : String)
    (recipient_affiliation : Int) : Stub × Except String Unit :=
  if v.Status = STATE_CHECK_ACCREDITIVE ∧ v.Owner = caller ∧
      caller_affiliation = BUYER ∧ recipient_affiliation = MANUFACTURER_BANK ∧
      v.Scrapped = false then
    commitOrFail st { v with Owner := recipient_name } "Error saving changes"
  else
    (st, .error "Permission denied")

/-- Source `lease_company_to_private` (lines 762-783). -/
def lease_company_to_private (st : Stub) (v : Product) (caller : String)
    (caller_affiliation : Int) (recipient_name : String)
    (recipient_affiliation : Int) : Stub × Except String Unit :=
  if v.Status = STATE_CHECK_ACCREDITIVE ∧ v.Owner = caller ∧
      caller_affiliation = MANUFACTURER_BANK ∧ recipient_affiliation = BUYER ∧
      v.Scrapped = false then
    commitOrFail st { v with Owner := recipient_name } "Error saving changes"
  else
    (st, .error "Permission denied")

/-- Source `private_to_scrap_merchant` (lines 788-813). -/
def private_to_scrap_merchant (st : Stub) (v : Product) (caller : String)
    (caller_affiliation : Int) (recipient_name : String)
    (recipient_affiliation : Int) : Stub × Except String Unit :=
  if v.Status = STATE_CHECK_ACCREDITIVE ∧ v.Owner = caller ∧
      caller_affiliation = BUYER ∧ recipient_affiliation = BUYER_BANK ∧
      v.Scrapped = false then
    commitOrFail st { v with Owner := recipient_name, Status := STATE_SHIPPING } "Error saving changes"
  else
    (st, .error "Permission denied")

/-- Source `update_registration` (lines 819-839). -/
def update_registration (st : Stub) (v : Product) (caller : String)
    (caller_affiliation : Int) (new_value : String) : Stub × Except String Unit :=
  if v.Owner = caller ∧ caller_affiliation ≠ BUYER_BANK ∧ v.Scrapped = false then
    commitOrFail st { v with Reg := new_value } "Error saving changes"
  else
    (st, .error "Permission denied")

/-- Source `update_colour` (lines 844-866). -/
def update_colour (st : Stub) (v : Product) (caller : String)
    (caller_affiliation : Int) (new_value : String) : Stub × Except String Unit :=
  if v.Owner = caller ∧ caller_affiliation = MANUFACTURER ∧ v.Scrapped = false then
    commitOrFail st { v with Colour := new_value } "Error saving changes"
  else
    (st, .error "Permission denied")

/-- Source `update_make` (lines 871-893). -/
def update_make (st : Stub) (v : Product) (caller : String)
    (caller_affiliation : Int) (new_value : String) : Stub × Except String Unit :=
  if v.Status = STATE_ACCREDITIVE ∧ v.Owner = caller ∧
      caller_affiliation = MANUFACTURER ∧ v.Scrapped = false then
    commitOrFail st { v with Make := new_value } "Error saving changes"
  else
    (st, .error "Permission denied")

/-- Source `update_model` (lines 898-919); it writes the `Name` field. -/
def update_model (st : Stub) (v : Product) (caller : String)
    (caller_affiliation : Int) (new_value : String) : Stub × Except String Unit :=
  if v.Status = STATE_ACCREDITIVE ∧ v.Owner = caller ∧
      caller_affiliation = MANUFACTURER ∧ v.Scrapped = false then
    commitOrFail st { v with Name := new_value } "Error saving changes"
  else
    (st, .error "Permission denied")

/-- Source `scrap_vehicle` (lines 924-945); sets `Scrapped`, `Status` stays. -/
def scrap_vehicle (st : Stub) (v : Product) (caller : String)
    (caller_affiliation : Int) : Stub × Except String Unit :=
  if v.Status = STATE_SHIPPING ∧ v.Owner = caller ∧
      caller_affiliation = BUYER_BANK ∧ v.Scrapped = false then
    commitOrFail st { v with Scrapped := true } "SCRAP_VEHICLError saving changes"
  else
    (st, .error "Permission denied")

/-- One collected entry of `getAllUsedProductIds`: the source assigns
`usedIds[i] = product.Product_Id` into a 500-slot zero-initialised slice
(the always-true `product != nil` guard of the source is dropped).  Indexing
past slot 499 is a Go runtime panic, modelled as `.error`. -/
def fillUsedIds (st : Stub) : List Int → Nat → List Int → Except String (List Int)
  | [], _, acc => .ok acc
  | pid :: rest, i, acc =>
    match retrieve_product st (toString pid) with
    | .error _ => .error "Failed to retrieve pid"
    | .ok product =>
      if i < acc.length then
        fillUsedIds st rest (i + 1) (acc.set i product.Product_Id)
      else
        .error "runtime panic: index out of range"

/-- Source `getAllUsedProductIds` (lines 400-431): loads the id-holder
record at key `"productId"`, dereferences every listed pid and collects the
`Product_Id` of each dereferenced record into the 500-slot slice.  A missing
or non-holder record fails JSON unmarshalling (`"Invalid JSON"`). -/
def getAllUsedProductIds (st : Stub) : Except String (List Int) :=
  match st.get "productId" with
  | some (.holder pids) => fillUsedIds st pids 0 (List.replicate 500 0)
  | some _ => .error "Invalid JSON"
  | none => .error "Invalid JSON"

/-- Source `isRandomIdUnused` (lines 385-395): ranges over the collected
used ids; when `getAllUsedProductIds` errors the loop ranges over a nil
slice, so every candidate counts as unused. -/
def isRandomIdUnused (st : Stub) (randomId : Int) : Bool :=
  match getAllUsedProductIds st with
  | .error _ => true
  | .ok usedIds => !usedIds.contains randomId

/-- Source `createRandomId` (lines 366-379): repeatedly draws
`rand.Intn(high-low)+low` until `isRandomIdUnused` accepts a draw.  The
random source is modelled as the stream `draws`; `none` marks the case in
which no listed draw is accepted, where the source loops forever. -/
def createRandomId (st : Stub) (draws : List Int) : Option Int :=
  draws.find? (fun d => isRandomIdUnused st d)

/-- Source `create_product` (lines 549-628).  The source references the
unbound name `caller_affiliation` in its permission check; the embedding
reads it as `caller1_affiliation`, the invoking caller's affiliation
(either reading — `caller1_affiliation` is pinned to `2` and
`caller2_affiliation` to `3` by the enclosing guard — makes the check
deny).  The `json.Unmarshal` of the concatenated JSON is modelled as the
evident record construction, with the handler-only fields (absent from
that JSON) at their Go zero values; no claim depends on this detail since
no path of this function reaches a ledger write. -/
def create_product (st : Stub) (caller1 : String) (_caller2 : String)
    (caller1_affiliation : Int) (caller2_affiliation : Int)
    (product_destination : String) (product_price : String)
    (product_currency : String) (contract : String)
    (draws : List Int) : Stub × Except String Unit :=
  match createRandomId st draws with
  | none => (st, .error "MODEL: createRandomId loops forever")
  | some productId =>
    if caller1_affiliation = 2 ∧ caller2_affiliation = 3 then
      let product : Product :=
        { Product_Id := productId, CheckId := "UNDEFINED",
          Manufacturer := caller1, Owner := caller1,
          Origin := "UNDEFINED", Current_location := "UNDEFINED",
          Destination := product_destination, Route := "UNDEFINED",
          Status := 0, Price := product_price, Currency := product_currency,
          Width := "UNDEFINED", Height := "UNDEFINED", Weight := "UNDEFINED",
          Sales_contract := contract, Scrapped := false,
          Make := "", Name := "", Reg := "", VIN := 0, Colour := "" }
      match st.get (toString product.Product_Id) with
      | some _ => (st, .error "Vehicle already exists")
      | none =>
        if caller1_affiliation ≠ GOVERNMENT then
          (st, .error "Permission Denied")
        else
          -- unreachable: `caller1_affiliation = 2 ≠ GOVERNMENT` here;
          -- kept to mirror the source text
          match save_changes st product with
          | (_, .error _) => (st, .error "Error saving changes")
          | (st1, .ok _) =>
            match st1.get "v5cIDs" with
            | some (.holder pids) =>
              match st1.put "v5cIDs" (.holder (pids ++ [productId])) with
              | .ok st2 => (st2, .ok ())
              | .error _ => (st1, .error "Unable to put the state")
            | some _ => (st1, .error "Corrupt V5C_Holder record")
            | none => (st1, .error "Corrupt V5C_Holder record")
    else
      (st, .ok ())

/-- `beginsWith pat cs`: `pat` is an initial segment of `cs`. -/
def beginsWith : List Char → List Char → Bool
  | [], _ => true
  | _ :: _, [] => false
  | p :: ps, c :: cs => p == c && beginsWith ps cs

/-- `containsSeq pat cs`: `pat` occurs contiguously in `cs`. -/
def containsSeq (pat : List Char) : List Char → Bool
  | [] => beginsWith pat []
  | c :: cs => beginsWith pat (c :: cs) || containsSeq pat cs

/-- Go `strings.Contains s pat`. -/
def strContains (s pat : String) : Bool :=
  containsSeq pat.data s.data

/-- Source `Invoke` (lines 438-510).  Caller data is passed in as the nine
values the source destructures from `get_caller_data`; the recipient
resolution `get_ecert` + `check_affiliation` (an external identity-service
call) is the oracle `recAff`.  Every branch of the source's routing to the
transition handlers is commented out, so every operation other than
`create_product` falls through to the unknown-function error.  An argument
access past the end of `args` is a Go runtime panic, modelled as an
`.error` tagged `runtime panic`. -/
def Invoke (st : Stub) (function : String) (args : List String)
    (caller1 : String) (caller2 : String)
    (caller1_affiliation caller2_affiliation : Int)
    (destination price currency contract : String)
    (recAff : String → Except String Int) (draws : List Int) :
    Stub × Except String Unit :=
  if function = "create_product" then
    create_product st caller1 caller2 caller1_affiliation caller2_affiliation
      destination price currency contract draws
  else
    let argPos : Nat := if function = "scrap_vehicle" then 0 else 1
    match args.get? argPos with
    | none => (st, .error "runtime panic: index out of range")
    | some pid =>
      match retrieve_product st pid with
      | .error _ => (st, .error "Error retrieving v5c")
      | .ok _product =>
        if strContains function "update" = false ∧ function ≠ "scrap_vehicle" then
          match args.get? 0 with
          | none => (st, .error "runtime panic: index out of range")
          | some recipient =>
            match recAff recipient with
            | .error e => (st, .error e)
            | .ok _rec_affiliation =>
              (st, .error "Function of that name doesn't exist.")
        else
          (st, .error "Function of that name doesn't exist.")

/-- Go `strings.Split cn sep` for a one-character separator: auxiliary
accumulator form. -/
def splitCharAux (sep : Char) : List Char → List Char → List String
  | [], acc => [String.mk acc.reverse]
  | c :: cs, acc =>
    if c == sep then String.mk acc.reverse :: splitCharAux sep cs []
    else splitCharAux sep cs (c :: acc)

/-- Go `strings.Split s (String.mk [sep])`. -/
def splitChar (sep : Char) (s : String) : List String :=
  splitCharAux sep s.data []

/-- Digit run to a number; `none` when a non-digit appears. -/
def parseDigitsAux : List Char → Nat → Option Nat
  | [], acc => some acc
  | c :: cs, acc =>
    if c.isDigit then parseDigitsAux cs (acc * 10 + (c.toNat - 48)) else none

/-- Non-empty all-digit run to a number. -/
def parseDigits : List Char → Option Nat
  | [] => none
  | c :: cs => parseDigitsAux (c :: cs) 0

/-- Go `strconv.Atoi` with its error discarded, as at source line 287
(`affiliation, _ := strconv.Atoi(res[2])`): on any syntax error Atoi
returns value `0`, which the source keeps. -/
def atoiDiscardingError (s : String) : Int :=
  match s.data with
  | '-' :: rest =>
    match parseDigits rest with
    | some n => -(n : Int)
    | none => 0
  | '+' :: rest =>
    match parseDigits rest with
    | some n => (n : Int)
    | none => 0
  | cs =>
    match parseDigits cs with
    | some n => (n : Int)
    | none => 0

/-- Source `check_affiliation` (lines 267-290), from the certificate's
subject common name onward (URL-decoding and X.509 parsing of the
credential bytes are the externals that produce `cn`): split the common
name on the fixed delimiter `"\"` and take `res[2]` through `Atoi` with
the error discarded.  `res[2]` on a split with fewer than three fields is
a Go runtime panic — not an error return — modelled as `none`. -/
def check_affiliation_cn (cn : String) : Option Int :=
  let res := splitChar '\\' cn
  match res.get? 2 with
  | none => none
  | some field => some (atoiDiscardingError field)

/-- Source `get_vehicle_details` (lines 952-968): marshal the product (the
serialized bytes are modelled as the product value itself, `json.Marshal`
of an in-memory record being information-preserving), then release it only
to the owner or a GOVERNMENT caller. -/
def get_vehicle_details (v : Product) (caller : String)
    (caller_affiliation : Int) : Except String Product :=
  if v.Owner = caller ∨ caller_affiliation = GOVERNMENT then .ok v
  else .error "Permission Denied"

/-- The loop body of `get_vehicles`: dereference each indexed pid (any
failure aborts the whole query), keep the records whose per-asset read is
permitted, skip the ones whose read is denied. -/
def get_vehicles_loop (st : Stub) (caller : String) (caller_affiliation : Int) :
    List Int → Except String (List Product)
  | [] => .ok []
  | pid :: rest =>
    match retrieve_product st (toString pid) with
    | .error _ => .error "Failed to retrieve V5C"
    | .ok v =>
      match get_vehicle_details v caller caller_affiliation with
      | .ok p =>
        match get_vehicles_loop st caller caller_affiliation rest with
        | .ok ps => .ok (p :: ps)
        | .error e => .error e
      | .error _ => get_vehicles_loop st caller caller_affiliation rest

/-- Source `get_vehicles` (lines 974-1017): load the id-holder record at
key `"v5cIDs"` (a missing or non-holder record fails unmarshalling), then
run the loop.  The JSON array concatenation of the source is modelled as
the list of serialized records, in index order. -/
def get_vehicles (st : Stub) (caller : String) (caller_affiliation : Int) :
    Except String (List Product) :=
  match st.get "v5cIDs" with
  | some (.holder pids) => get_vehicles_loop st caller caller_affiliation pids
  | some _ => .error "Corrupt V5C_Holder"
  | none => .error "Corrupt V5C_Holder"

/-- Result of a read-only query: one serialized vehicle or the list. -/
inductive QueryResult where
  | vehicle (p : Product)
  | vehicles (ps : List Product)
deriving Repr, DecidableEq

/-- Source `Query` (lines 515-541): resolves the caller (passed in here),
then routes `get_vehicle_details` (exactly one argument) or
`get_vehicles`; it performs no ledger write, so the stub is returned
untouched. -/
def Query (st : Stub) (function : String) (args : List String)
    (caller : String) (caller_affiliation : Int) :
    Stub × Except String QueryResult :=
  if function = "get_vehicle_details" then
    if args.length ≠ 1 then
      (st, .error "QUERY: Incorrect number of arguments passed")
    else
      match retrieve_product st (args.getD 0 "") with
      | .error _ => (st, .error "QUERY: Error retrieving v5c")
      | .ok v =>
        match get_vehicle_details v caller caller_affiliation with
        | .ok p => (st, .ok (.vehicle p))
        | .error e => (st, .error e)
  else if function = "get_vehicles" then
    match get_vehicles st caller caller_affiliation with
    | .ok ps => (st, .ok (.vehicles ps))
    | .error e => (st, .error e)
  else
    (st, .error "Received unknown function invocation")

/-- The closed enumeration of the mutating operations that act on an
existing asset (the transfer, update and scrap handlers). -/
inductive Op where
  | manufacturer_to_buyer
  | manufacturer_to_bank
  | buyer_to_buyer
  | private_to_lease_company
  | lease_company_to_private
  | private_to_scrap_merchant
  | update_registration
  | update_colour
  | update_make
  | update_model
  | scrap_vehicle
deriving Repr, DecidableEq

/-- Uniform application of a mutating handler to its argument bundle
(recipient data is ignored by the update/scrap handlers, the update value
by the transfer/scrap handlers, exactly as in the source signatures). -/
def applyOp (op : Op) (st : Stub) (v : Product) (caller : String)
    (caller_affiliation : Int) (recipient_name : String)
    (recipient_affiliation : Int) (new_value : String) :
    Stub × Except String Unit :=
  match op with
  | .manufacturer_to_buyer =>
    manufacturer_to_buyer st v caller caller_affiliation recipient_name recipient_affiliation
  | .manufacturer_to_bank =>
    manufacturer_to_bank st v caller caller_affiliation recipient_name recipient_affiliation
  | .buyer_to_buyer =>
    buyer_to_buyer st v caller caller_affiliation recipient_name recipient_affiliation
  | .private_to_lease_company =>
    private_to_lease_company st v caller caller_affiliation recipient_name recipient_affiliation
  | .lease_company_to_private =>
    lease_company_to_private st v caller caller_affiliation recipient_name recipient_affiliation
  | .private_to_scrap_merchant =>
    private_to_scrap_merchant st v caller caller_affiliation recipient_name recipient_affiliation
  | .update_registration =>
    update_registration st v caller caller_affiliation new_value
  | .update_colour =>
    update_colour st v caller caller_affiliation new_value
  | .update_make =>
    update_make st v caller caller_affiliation new_value
  | .update_model =>
    update_model st v caller caller_affiliation new_value
  | .scrap_vehicle =>
    scrap_vehicle st v caller caller_affiliation

/-- One requested mutating call: the operation together with the resolved
caller data, recipient data and update value it is applied with. -/
structure OpCall where
  op : Op
  caller : String
  caller_affiliation : Int
  recipient_name : String
  recipient_affiliation : Int
  new_value : String
deriving Repr, DecidableEq

/-- A sequence of mutating calls against the asset stored at ledger key
`pid`: each call retrieves the current record, applies its handler and
threads the ledger; the first failure stops the run. -/
def runCalls (pid : String) : List OpCall → Stub → Stub × Except String Unit
  | [], st => (st, .ok ())
  | c :: rest, st =>
    match retrieve_product st pid with
    | .error e => (st, .error e)
    | .ok v =>
      match applyOp c.op st v c.caller c.caller_affiliation
          c.recipient_name c.recipient_affiliation c.new_value with
      | (st', .ok _) => runCalls pid rest st'
      | (st', .error e) => (st', .error e)

/-! Concrete sample data used by the closed theorems and witnesses. -/

/-- A fully populated asset at `SALES_CONTRACT`, owned by `"DVLA"`. -/
def sampleProduct : Product :=
  { Product_Id := 42, CheckId := "c", Manufacturer := "Toyota", Owner := "DVLA",
    Origin := "o", Current_location := "l", Destination := "Derby", Route := "r",
    Status := 0, Price := "10", Currency := "GBP", Width := "1", Height := "1",
    Weight := "1", Sales_contract := "s", Scrapped := false,
    Make := "Corolla", Name := "Car", Reg := "AB12", VIN := 7, Colour := "red" }

/-- A ledger holding just `sampleProduct` under its id key. -/
def sampleStub : Stub := { entries := [("42", .prod sampleProduct)], failing := [] }

/-- A recipient-resolution oracle that reports affiliation `MANUFACTURER`. -/
def sampleRecAff : String → Except String Int := fun _ => .ok 2

/-- `sampleProduct` after the `manufacturer_to_buyer` transfer to `"Toyota"`. -/
def sampleTransferred : Product :=
  { sampleProduct with Owner := "Toyota", Status := STATE_ACCREDITIVE }

/-- The ledger after persisting `sampleTransferred`. -/
def sampleStubAfter : Stub :=
  { entries := ("42", .prod sampleTransferred) :: sampleStub.entries, failing := [] }

/-- A ledger whose maintained id index (`"v5cIDs"`, the record `create_product`
appends to and `get_vehicles` reads) lists the asset `100000001`, which is
also present as a record; the key `"productId"` consulted by the allocator
is absent, as it is in every reachable ledger. -/
def indexStub : Stub :=
  { entries := [("v5cIDs", .holder [100000001]),
                ("100000001", .prod { sampleProduct with Product_Id := 100000001 })],
    failing := [] }

/-- `sampleProduct` marked scrapped. -/
def scrappedProduct : Product := { sampleProduct with Scrapped := true }

/-- A scrapped asset one of whose descriptive fields carries the
`"UNDEFINED"` sentinel (reachable: `update_registration` has no state guard,
so the registration can be set back to `"UNDEFINED"` before the scrap). -/
def scrappedUndefined : Product :=
  { sampleProduct with Scrapped := true, Reg := "UNDEFINED" }

/-- The spec's Scenario B transfer as a mutating call. -/
def sampleCall : OpCall :=
  { op := .manufacturer_to_buyer, caller := "DVLA", caller_affiliation := 1,
    recipient_name := "Toyota", recipient_affiliation := 2, new_value := "" }

/-- An asset owned by `"Alice"`. -/
def pAlice : Product := { sampleProduct with Product_Id := 1, Owner := "Alice" }

/-- An asset owned by `"Bob"`. -/
def pBob : Product := { sampleProduct with Product_Id := 2, Owner := "Bob" }

/-- A ledger indexing the two assets of `pAlice` and `pBob`. -/
def twoStub : Stub :=
  { entries := [("v5cIDs", .holder [1, 2]), ("1", .prod pAlice), ("2", .prod pBob)],
    failing := [] }

/-- The dereference function of `twoStub`. -/
def fTwo : Int → Product := fun pid => if pid = 1 then pAlice else pBob

/-! Helper lemmas about the ledger and the shared handler epilogue. -/

/-- On a non-failing key the epilogue commits exactly one new entry. -/
theorem commitOrFail_success {st : Stub} {p : Product} {m : String}
    (h : st.failing.contains (toString p.Product_Id) = false) :
    commitOrFail st p m =
      ({ st with entries := (toString p.Product_Id, .prod p) :: st.entries }, .ok ()) := by
  have h' : toString p.Product_Id ∉ st.failing := by simpa using h
  simp [commitOrFail, save_changes, Stub.put, h']

/-- The epilogue either commits the one new entry or fails leaving the
ledger unchanged. -/
theorem commitOrFail_spec (st : Stub) (p : Product) (m : String) :
    commitOrFail st p m =
      ({ st with entries := (toString p.Product_Id, .prod p) :: st.entries }, .ok ()) ∨
    commitOrFail st p m = (st, .error m) := by
  by_cases h : toString p.Product_Id ∈ st.failing
  · right
    simp [commitOrFail, save_changes, Stub.put, h]
  · left
    simp [commitOrFail, save_changes, Stub.put, h]

/-- A successful epilogue result is the one-entry extension. -/
theorem commitOrFail_ok {st st' : Stub} {p : Product} {m : String}
    (h : commitOrFail st p m = (st', .ok ())) :
    st'.entries = (toString p.Product_Id, .prod p) :: st.entries ∧
      st'.failing = st.failing := by
  rcases commitOrFail_spec st p m with hs | hs
  · rw [hs] at h
    injection h with h1 _
    rw [← h1]
    exact ⟨rfl, rfl⟩
  · rw [hs] at h
    simp at h

/-- `create_product` never changes the ledger: the branch holding its two
`PutState` calls requires `caller1_affiliation = 2` from the outer guard and
`caller1_affiliation = GOVERNMENT = 1` from the permission check at once. -/
theorem create_product_fst (st : Stub) (c1 c2 : String) (a1 a2 : Int)
    (d pr cur con : String) (draws : List Int) :
    (create_product st c1 c2 a1 a2 d pr cur con draws).fst = st := by
  simp only [create_product]
  split
  · rfl
  · split
    next hg =>
      have ha : a1 ≠ GOVERNMENT := by
        simp only [GOVERNMENT]
        omega
      rw [if_pos ha]
      split
      · rfl
      · rfl
    next => rfl

/-- A successful mutating handler run extends the ledger with exactly the
updated asset, stored under the unchanged product id, with a status at
least the old one. -/
theorem applyOp_ok {op : Op} {st : Stub} {v : Product} {caller : String}
    {aff : Int} {rec : String} {recAff : Int} {nv : String} {st' : Stub}
    (h : applyOp op st v caller aff rec recAff nv = (st', .ok ())) :
    ∃ v', st'.entries = (toString v.Product_Id, .prod v') :: st.entries ∧
      st'.failing = st.failing ∧ v'.Product_Id = v.Product_Id ∧
      v.Status ≤ v'.Status := by
  cases op <;>
    simp only [applyOp, manufacturer_to_buyer, manufacturer_to_bank, buyer_to_buyer,
      private_to_lease_company, lease_company_to_private, private_to_scrap_merchant,
      update_registration, update_colour, update_make, update_model,
      scrap_vehicle] at h
  case manufacturer_to_buyer =>
    split at h
    next hg =>
      obtain ⟨he, hf⟩ := commitOrFail_ok h
      exact ⟨_, he, hf, rfl, by rw [hg.1]; exact (by decide : STATE_SALESCONTRACT ≤ STATE_ACCREDITIVE)⟩
    next => simp at h
  case manufacturer_to_bank =>
    split at h
    next => simp at h
    next =>
      split at h
      next hg =>
        obtain ⟨he, hf⟩ := commitOrFail_ok h
        exact ⟨_, he, hf, rfl, by rw [hg.1]; exact (by decide : STATE_ACCREDITIVE ≤ STATE_CHECK_ACCREDITIVE)⟩
      next => simp at h
  case buyer_to_buyer =>
    split at h
    next hg =>
      obtain ⟨he, hf⟩ := commitOrFail_ok h
      exact ⟨_, he, hf, rfl, le_rfl⟩
    next => simp at h
  case private_to_lease_company =>
    split at h
    next hg =>
      obtain ⟨he, hf⟩ := commitOrFail_ok h
      exact ⟨_, he, hf, rfl, le_rfl⟩
    next => simp at h
  case lease_company_to_private =>
    split at h
    next hg =>
      obtain ⟨he, hf⟩ := commitOrFail_ok h
      exact ⟨_, he, hf, rfl, le_rfl⟩
    next => simp at h
  case private_to_scrap_merchant =>
    split at h
    next hg =>
      obtain ⟨he, hf⟩ := commitOrFail_ok h
      exact ⟨_, he, hf, rfl, by rw [hg.1]; exact (by decide : STATE_CHECK_ACCREDITIVE ≤ STATE_SHIPPING)⟩
    next => simp at h
  case update_registration =>
    split at h
    next hg =>
      obtain ⟨he, hf⟩ := commitOrFail_ok h
      exact ⟨_, he, hf, rfl, le_rfl⟩
    next => simp at h
  case update_colour =>
    split at h
    next hg =>
      obtain ⟨he, hf⟩ := commitOrFail_ok h
      exact ⟨_, he, hf, rfl, le_rfl⟩
    next => simp at h
  case update_make =>
    split at h
    next hg =>
      obtain ⟨he, hf⟩ := commitOrFail_ok h
      exact ⟨_, he, hf, rfl, le_rfl⟩
    next => simp at h
  case update_model =>
    split at h
    next hg =>
      obtain ⟨he, hf⟩ := commitOrFail_ok h
      exact ⟨_, he, hf, rfl, le_rfl⟩
    next => simp at h
  case scrap_vehicle =>
    split at h
    next hg =>
      obtain ⟨he, hf⟩ := commitOrFail_ok h
      exact ⟨_, he, hf, rfl, le_rfl⟩
    next => simp at h

/-- A mutating handler either leaves the ledger unchanged (reporting an
error) or commits exactly the one updated asset record. -/
theorem applyOp_shape (op : Op) (st : Stub) (v : Product) (caller : String)
    (aff : Int) (rec : String) (recAff : Int) (nv : String) :
    (applyOp op st v caller aff rec recAff nv).fst = st ∨
    ∃ p, applyOp op st v caller aff rec recAff nv =
      ({ st with entries := (toString p.Product_Id, .prod p) :: st.entries }, .ok ()) := by
  cases op <;>
    simp only [applyOp, manufacturer_to_buyer, manufacturer_to_bank, buyer_to_buyer,
      private_to_lease_company, lease_company_to_private, private_to_scrap_merchant,
      update_registration, update_colour, update_make, update_model, scrap_vehicle]
  case manufacturer_to_bank =>
    split
    · exact Or.inl rfl
    · split
      · rcases commitOrFail_spec st _ "Error saving changes" with hs | hs
        · rw [hs]
          exact Or.inr ⟨_, rfl⟩
        · rw [hs]
          exact Or.inl rfl
      · exact Or.inl rfl
  all_goals
    split
    case isTrue =>
      rcases commitOrFail_spec st _ _ with hs | hs
      · rw [hs]
        exact Or.inr ⟨_, rfl⟩
      · rw [hs]
        exact Or.inl rfl
    case isFalse => exact Or.inl rfl

/-- Retrieval from a ledger extended with one product record. -/
theorem retrieve_from_cons {st1 st : Stub} {k0 : String} {p : Product}
    (h : st1.entries = (k0, .prod p) :: st.entries) (k : String) :
    retrieve_product st1 k = if k0 = k then .ok p else retrieve_product st k := by
  unfold retrieve_product Stub.get
  rw [h]
  cases hbeq : (k0 == k) with
  | true =>
    have hk : k0 = k := by simpa using hbeq
    rw [if_pos hk, List.find?_cons_of_pos _ (by simpa using hbeq)]
  | false =>
    have hk : ¬k0 = k := by simpa using hbeq
    rw [if_neg hk, List.find?_cons_of_neg _ (by simpa using hbeq)]

/-- The permitted sublist collected by a fully-dereferenceable index. -/
theorem get_vehicles_loop_all_ok (st : Stub) (caller : String) (aff : Int)
    (f : Int → Product) :
    ∀ pids : List Int,
      (∀ pid ∈ pids, retrieve_product st (toString pid) = .ok (f pid)) →
      get_vehicles_loop st caller aff pids =
        .ok ((pids.map f).filter
          (fun p => decide (p.Owner = caller ∨ aff = GOVERNMENT)))
  | [], _ => by simp [get_vehicles_loop]
  | pid :: rest, hall => by
    have hh : retrieve_product st (toString pid) = .ok (f pid) :=
      hall pid (List.mem_cons_self pid rest)
    have ht := get_vehicles_loop_all_ok st caller aff f rest
      (fun q hq => hall q (List.mem_cons_of_mem _ hq))
    simp only [get_vehicles_loop, hh]
    by_cases hc : (f pid).Owner = caller ∨ aff = GOVERNMENT
    · simp [get_vehicle_details, hc, ht, List.filter_cons]
    · simp [get_vehicle_details, hc, ht, List.filter_cons]

/-- A single failing dereference aborts the whole listing. -/
theorem get_vehicles_loop_fails (st : Stub) (caller : String) (aff : Int) :
    ∀ pids : List Int, ∀ pid ∈ pids,
      (∃ e, retrieve_product st (toString pid) = .error e) →
      get_vehicles_loop st caller aff pids = .error "Failed to retrieve V5C"
  | [], pid, hmem, _ => absurd hmem (List.not_mem_nil pid)
  | pid0 :: rest, pid, hmem, ⟨e, he⟩ => by
    rcases List.mem_cons.mp hmem with rfl | hmem'
    · simp [get_vehicles_loop, he]
    · cases hr : retrieve_product st (toString pid0) with
      | error e0 => simp [get_vehicles_loop, hr]
      | ok v0 =>
        have ht := get_vehicles_loop_fails st caller aff rest pid hmem' ⟨e, he⟩
        simp only [get_vehicles_loop, hr]
        cases hd : get_vehicle_details v0 caller aff with
        | ok p => simp [hd, ht]
        | error e1 => simp [hd, ht]

/-- C4: along any successful sequence of mutating calls against the asset
stored at a ledger key, the asset's lifecycle `Status` never decreases:
every transition either keeps the status or advances it along
`SALES_CONTRACT(0) < ACCREDITIVE(1) < CHECK_ACCREDITIVE(2) < ... <
SHIPPING(4) < ...` (a scrap sets `Scrapped` and keeps the status). -/
theorem lifecycle_status_monotone (pid : String) (calls : List OpCall)
    (st st' : Stub) (v v' : Product)
    (hrun : runCalls pid calls st = (st', .ok ()))
    (hv : retrieve_product st pid = .ok v)
    (hv' : retrieve_product st' pid = .ok v') :
    v.Status ≤ v'.Status := by
  induction calls generalizing st v with
  | nil =>
    simp only [runCalls] at hrun
    injection hrun with h1 _
    subst h1
    rw [hv] at hv'
    injection hv' with h2
    subst h2
    exact le_rfl
  | cons c rest ih =>
    simp only [runCalls, hv] at hrun
    rcases happ : applyOp c.op st v c.caller c.caller_affiliation
        c.recipient_name c.recipient_affiliation c.new_value with ⟨st1, r⟩
    rw [happ] at hrun
    cases r with
    | ok u =>
      replace hrun : runCalls pid rest st1 = (st', .ok ()) := hrun
      obtain ⟨v1, hent, _, _, hle⟩ := applyOp_ok happ
      by_cases hk : toString v.Product_Id = pid
      · have hre : retrieve_product st1 pid = .ok v1 := by
          rw [retrieve_from_cons hent pid, if_pos hk]
        exact le_trans hle (ih st1 v1 hrun hre)
      · have hre : retrieve_product st1 pid = .ok v := by
          rw [retrieve_from_cons hent pid, if_neg hk]
          exact hv
        exact ih st1 v hrun hre
    | error e =>
      replace hrun : (st1, Except.error e) = (st', Except.ok ()) := hrun
      simp at hrun

/-- Witness for `lifecycle_status_monotone`: one successful Scenario B
transfer takes the sample asset from status `0` to status `1`. -/
theorem lifecycle_status_monotone_witness :
    sampleProduct.Status ≤ sampleTransferred.Status :=
  lifecycle_status_monotone "42" [sampleCall] sampleStub sampleStubAfter
    sampleProduct sampleTransferred (by decide) (by decide) (by decide)

/-- C9: `get_vehicle_details` returns the serialized asset exactly when the
caller is the owner or has GOVERNMENT affiliation, returns the
permission-denied error otherwise, and the `Query` surface never changes
the ledger. -/
theorem get_vehicle_details_spec (v : Product) (caller : String) (aff : Int) :
    (get_vehicle_details v caller aff = .ok v ↔
      (v.Owner = caller ∨ aff = GOVERNMENT)) ∧
    (¬(v.Owner = caller ∨ aff = GOVERNMENT) →
      get_vehicle_details v caller aff = .error "Permission Denied") ∧
    (∀ st function args, (Query st function args caller aff).fst = st) := by
  refine ⟨?_, ?_, ?_⟩
  · by_cases h : v.Owner = caller ∨ aff = GOVERNMENT
    · simp [get_vehicle_details, h]
    · simp [get_vehicle_details, h]
  · intro h
    unfold get_vehicle_details
    rw [if_neg h]
  · intro st fn args
    unfold Query
    repeat' split
    all_goals rfl

/-- Witness for `get_vehicle_details_spec`: the owner reads their asset, a
non-owner non-GOVERNMENT caller is denied, and a query leaves the ledger
unchanged. -/
theorem get_vehicle_details_spec_witness :
    get_vehicle_details sampleProduct "DVLA" BUYER = .ok sampleProduct ∧
    get_vehicle_details sampleProduct "Eve" BUYER = .error "Permission Denied" ∧
    (Query sampleStub "get_vehicle_details" ["42"] "Eve" BUYER).fst = sampleStub :=
  ⟨(get_vehicle_details_spec sampleProduct "DVLA" BUYER).1.mpr (by decide),
   (get_vehicle_details_spec sampleProduct "Eve" BUYER).2.1 (by decide),
   (get_vehicle_details_spec sampleProduct "Eve" BUYER).2.2 sampleStub
     "get_vehicle_details" ["42"]⟩

/-- C10: with the `"v5cIDs"` index in place, `get_vehicles` returns exactly
the indexed assets the caller may read (its own, or all of them for a
GOVERNMENT caller), silently omitting the denied ones — but any indexed
asset that cannot be retrieved fails the whole query. -/
theorem get_vehicles_spec (st : Stub) (caller : String) (aff : Int)
    (pids : List Int) (f : Int → Product)
    (hidx : Stub.get st "v5cIDs" = some (.holder pids)) :
    ((∀ pid ∈ pids, retrieve_product st (toString pid) = .ok (f pid)) →
      get_vehicles st caller aff =
        .ok ((pids.map f).filter
          (fun p => decide (p.Owner = caller ∨ aff = GOVERNMENT)))) ∧
    (∀ pid ∈ pids, (∃ e, retrieve_product st (toString pid) = .error e) →
      get_vehicles st caller aff = .error "Failed to retrieve V5C") := by
  constructor
  · intro hall
    simp only [get_vehicles, hidx]
    exact get_vehicles_loop_all_ok st caller aff f pids hall
  · intro pid hmem hfail
    simp only [get_vehicles, hidx]
    exact get_vehicles_loop_fails st caller aff pids pid hmem hfail

/-- Witness for `get_vehicles_spec`: on a two-asset ledger, the BUYER
`"Alice"` lists exactly her own asset. -/
theorem get_vehicles_spec_witness :
    get_vehicles twoStub "Alice" BUYER = .ok [pAlice] :=
  ((get_vehicles_spec twoStub "Alice" BUYER [1, 2] fTwo (by decide)).1
    (by decide)).trans (by decide)

/-- C1: the spec claims `Invoke` routes each of the listed operation names
(`manufacturer_to_buyer` ... `scrap_vehicle`) to its transition handler and
that only names outside the list fail with `UnknownOperation`.  In the
source every routing branch for these operations is commented out, so each
listed operation (other than `create_product`) fails with the
unknown-function error, with the ledger untouched — here evaluated at a
ledger that holds the referenced asset and a resolvable recipient. -/
theorem invoke_fails_on_every_listed_operation :
    (Invoke sampleStub "manufacturer_to_buyer" ["Toyota", "42"] "DVLA" "X" 1 3
      "d" "p" "c" "ct" sampleRecAff [100000001] =
      (sampleStub, .error "Function of that name doesn't exist.")) ∧
    (Invoke sampleStub "manufacturer_to_bank" ["Toyota", "42"] "DVLA" "X" 1 3
      "d" "p" "c" "ct" sampleRecAff [100000001] =
      (sampleStub, .error "Function of that name doesn't exist.")) ∧
    (Invoke sampleStub "buyer_to_buyer" ["Toyota", "42"] "DVLA" "X" 1 3
      "d" "p" "c" "ct" sampleRecAff [100000001] =
      (sampleStub, .error "Function of that name doesn't exist.")) ∧
    (Invoke sampleStub "private_to_lease_company" ["Toyota", "42"] "DVLA" "X" 1 3
      "d" "p" "c" "ct" sampleRecAff [100000001] =
      (sampleStub, .error "Function of that name doesn't exist.")) ∧
    (Invoke sampleStub "lease_company_to_private" ["Toyota", "42"] "DVLA" "X" 1 3
      "d" "p" "c" "ct" sampleRecAff [100000001] =
      (sampleStub, .error "Function of that name doesn't exist.")) ∧
    (Invoke sampleStub "private_to_scrap_merchant" ["Toyota", "42"] "DVLA" "X" 1 3
      "d" "p" "c" "ct" sampleRecAff [100000001] =
      (sampleStub, .error "Function of that name doesn't exist.")) ∧
    (Invoke sampleStub "update_registration" ["XY99", "42"] "DVLA" "X" 1 3
      "d" "p" "c" "ct" sampleRecAff [100000001] =
      (sampleStub, .error "Function of that name doesn't exist.")) ∧
    (Invoke sampleStub "update_colour" ["blue", "42"] "DVLA" "X" 1 3
      "d" "p" "c" "ct" sampleRecAff [100000001] =
      (sampleStub, .error "Function of that name doesn't exist.")) ∧
    (Invoke sampleStub "update_make" ["Yaris", "42"] "DVLA" "X" 1 3
      "d" "p" "c" "ct" sampleRecAff [100000001] =
      (sampleStub, .error "Function of that name doesn't exist.")) ∧
    (Invoke sampleStub "update_model" ["Car2", "42"] "DVLA" "X" 1 3
      "d" "p" "c" "ct" sampleRecAff [100000001] =
      (sampleStub, .error "Function of that name doesn't exist.")) ∧
    (Invoke sampleStub "scrap_vehicle" ["42"] "DVLA" "X" 1 3
      "d" "p" "c" "ct" sampleRecAff [100000001] =
      (sampleStub, .error "Function of that name doesn't exist.")) := by
  decide

/-- C2: the spec claims every non-GOVERNMENT caller gets `PermissionDenied`
from `create_product` with no write.  In the source the permission check
sits inside a guard requiring `(caller1, caller2)` affiliations `(2, 3)`,
so a BUYER caller (and even a GOVERNMENT caller) falls to the `else` branch
and the call *silently succeeds* with no write, while a MANUFACTURER caller
reaches the check — which can then never pass, so no caller can ever
create an asset. -/
theorem create_product_non_government_behaviour :
    (create_product sampleStub "Buyer1" "Buyer2" BUYER BUYER "d" "p" "c" "ct"
      [100000001] = (sampleStub, .ok ())) ∧
    (create_product sampleStub "Gov" "Buyer2" GOVERNMENT BUYER "d" "p" "c" "ct"
      [100000001] = (sampleStub, .ok ())) ∧
    (create_product sampleStub "Manu" "Buyer2" MANUFACTURER BUYER "d" "p" "c" "ct"
      [100000001] = (sampleStub, .error "Permission Denied")) := by
  decide

/-- C5: the spec claims the allocator never returns an id present in the
current Id Index.  The allocator's uniqueness check loads the record at key
`"productId"`, which no code path ever writes (`Init` writes `"pids"`,
`create_product` appends to `"v5cIDs"`), so on a ledger whose maintained
index `"v5cIDs"` lists the allocated id `100000001` — with the asset record
present — `createRandomId` happily returns that very id on the first
draw. -/
theorem createRandomId_returns_id_in_index :
    Stub.get indexStub "v5cIDs" = some (.holder [100000001]) ∧
    retrieve_product indexStub "100000001" =
      .ok { sampleProduct with Product_Id := 100000001 } ∧
    createRandomId indexStub [100000001] = some 100000001 := by
  decide

/-- C7, counterexample: the spec claims identity resolution fails with
`IdentityMalformed` whenever the third common-name field is missing or
non-numeric.  On a common name whose third field is `"notanumber"` the
source discards the `Atoi` error and *succeeds* with affiliation `0`. -/
theorem check_affiliation_nonnumeric_succeeds :
    check_affiliation_cn "user\\org\\notanumber" = some 0 := by
  decide

/-- C7, amended: `check_affiliation` splits the common name on `"\"` and
runs the third field through `Atoi` with the error discarded — whenever a
third field exists the call *succeeds* with the `Atoi` value (which is `0`
for a non-numeric field), and when fewer than three fields exist the
indexing `res[2]` is a runtime panic (modelled `none`), not an error
return. -/
theorem check_affiliation_behaviour :
    (∀ cn field, (splitChar '\\' cn).get? 2 = some field →
      check_affiliation_cn cn = some (atoiDiscardingError field)) ∧
    (∀ cn, (splitChar '\\' cn).length < 3 →
      check_affiliation_cn cn = none) := by
  constructor
  · intro cn field h
    simp only [check_affiliation_cn]
    rw [h]
  · intro cn h
    simp only [check_affiliation_cn]
    rw [List.get?_eq_none.mpr (by omega)]

/-- Witness for `check_affiliation_behaviour` at concrete common names. -/
theorem check_affiliation_behaviour_witness :
    check_affiliation_cn "user\\org\\17" = some (atoiDiscardingError "17") ∧
    check_affiliation_cn "useronly" = none :=
  ⟨check_affiliation_behaviour.1 "user\\org\\17" "17" (by decide),
   check_affiliation_behaviour.2 "useronly" (by decide)⟩

/-- C8: `manufacturer_to_buyer` on a writable asset key — when the asset is
at `SALES_CONTRACT`, owned by the caller, the caller is GOVERNMENT, the
recipient is MANUFACTURER and the asset is not scrapped, the transfer
persists the asset with `Owner` set to the recipient and `Status` set to
`ACCREDITIVE`; when any of these preconditions fails it returns
`Permission Denied` with the ledger unchanged. -/
theorem manufacturer_to_buyer_spec (st : Stub) (v : Product) (caller : String)
    (caller_affiliation : Int) (recipient_name : String)
    (recipient_affiliation : Int)
    (hw : st.failing.contains (toString v.Product_Id) = false) :
    ((v.Status = STATE_SALESCONTRACT ∧ v.Owner = caller ∧
        caller_affiliation = GOVERNMENT ∧ recipient_affiliation = MANUFACTURER ∧
        v.Scrapped = false) →
      manufacturer_to_buyer st v caller caller_affiliation recipient_name
          recipient_affiliation =
        ({ st with entries :=
            (toString v.Product_Id,
              .prod { v with Owner := recipient_name, Status := STATE_ACCREDITIVE }) ::
              st.entries }, .ok ())) ∧
    (¬(v.Status = STATE_SALESCONTRACT ∧ v.Owner = caller ∧
        caller_affiliation = GOVERNMENT ∧ recipient_affiliation = MANUFACTURER ∧
        v.Scrapped = false) →
      manufacturer_to_buyer st v caller caller_affiliation recipient_name
          recipient_affiliation = (st, .error "Permission Denied")) := by
  constructor
  · intro hg
    unfold manufacturer_to_buyer
    rw [if_pos hg]
    exact commitOrFail_success hw
  · intro hg
    unfold manufacturer_to_buyer
    rw [if_neg hg]

/-- Witness for `manufacturer_to_buyer_spec`: the spec's Scenario B
(`"DVLA"`, GOVERNMENT, transfers to MANUFACTURER `"Toyota"`), plus a denied
attempt by a non-owner BUYER. -/
theorem manufacturer_to_buyer_spec_witness :
    manufacturer_to_buyer sampleStub sampleProduct "DVLA" 1 "Toyota" 2 =
      (sampleStubAfter, .ok ()) ∧
    manufacturer_to_buyer sampleStub sampleProduct "Eve" 3 "Toyota" 2 =
      (sampleStub, .error "Permission Denied") := by
  constructor
  · exact ((manufacturer_to_buyer_spec sampleStub sampleProduct "DVLA" 1 "Toyota" 2
      (by decide)).1 (by decide)).trans (by decide)
  · exact (manufacturer_to_buyer_spec sampleStub sampleProduct "Eve" 3 "Toyota" 2
      (by decide)).2 (by decide)

/-- C3, counterexample: the spec claims every mutating operation on a
scrapped asset fails with `PermissionDenied`; on a scrapped asset whose
registration carries the `"UNDEFINED"` sentinel, `manufacturer_to_bank`
fails with the distinct not-fully-defined error instead. -/
theorem scrapped_mutation_not_always_permission_denied :
    (manufacturer_to_bank sampleStub scrappedUndefined "DVLA" 2 "Bank" 3).snd =
      .error "Car not fully defined" ∧
    (manufacturer_to_bank sampleStub scrappedUndefined "DVLA" 2 "Bank" 3).snd ≠
      .error "Permission denied" ∧
    (manufacturer_to_bank sampleStub scrappedUndefined "DVLA" 2 "Bank" 3).snd ≠
      .error "Permission Denied" := by
  decide

/-- C3, amended: every mutating operation on a scrapped asset fails and
leaves the ledger unchanged; the failure is the permission-denied error,
except that `manufacturer_to_bank` on an asset with an `"UNDEFINED"`
descriptive field (or zero VIN) reports the not-fully-defined error. -/
theorem scrapped_asset_rejects_all_mutations (op : Op) (st : Stub)
    (v : Product) (caller : String) (aff : Int) (rec : String) (recAff : Int)
    (nv : String) (h : v.Scrapped = true) :
    (applyOp op st v caller aff rec recAff nv).fst = st ∧
    ((applyOp op st v caller aff rec recAff nv).snd = .error "Permission Denied" ∨
     (applyOp op st v caller aff rec recAff nv).snd = .error "Permission denied" ∨
     (op = .manufacturer_to_bank ∧
       (v.Make = "UNDEFINED" ∨ v.Name = "UNDEFINED" ∨ v.Reg = "UNDEFINED" ∨
         v.Colour = "UNDEFINED" ∨ v.VIN = 0) ∧
       (applyOp op st v caller aff rec recAff nv).snd =
         .error "Car not fully defined")) := by
  cases op <;>
    simp only [applyOp, manufacturer_to_buyer, manufacturer_to_bank, buyer_to_buyer,
      private_to_lease_company, lease_company_to_private, private_to_scrap_merchant,
      update_registration, update_colour, update_make, update_model, scrap_vehicle]
  case manufacturer_to_buyer =>
    rw [if_neg (by intro hg; rw [h] at hg; simp at hg)]
    exact ⟨rfl, Or.inl rfl⟩
  case manufacturer_to_bank =>
    by_cases hu : v.Make = "UNDEFINED" ∨ v.Name = "UNDEFINED" ∨
        v.Reg = "UNDEFINED" ∨ v.Colour = "UNDEFINED" ∨ v.VIN = 0
    · rw [if_pos hu]
      exact ⟨rfl, Or.inr (Or.inr ⟨by trivial, hu, rfl⟩)⟩
    · rw [if_neg hu, if_neg (by intro hg; rw [h] at hg; simp at hg)]
      exact ⟨rfl, Or.inr (Or.inl rfl)⟩
  case buyer_to_buyer =>
    rw [if_neg (by intro hg; rw [h] at hg; simp at hg)]
    exact ⟨rfl, Or.inr (Or.inl rfl)⟩
  case private_to_lease_company =>
    rw [if_neg (by intro hg; rw [h] at hg; simp at hg)]
    exact ⟨rfl, Or.inr (Or.inl rfl)⟩
  case lease_company_to_private =>
    rw [if_neg (by intro hg; rw [h] at hg; simp at hg)]
    exact ⟨rfl, Or.inr (Or.inl rfl)⟩
  case private_to_scrap_merchant =>
    rw [if_neg (by intro hg; rw [h] at hg; simp at hg)]
    exact ⟨rfl, Or.inr (Or.inl rfl)⟩
  case update_registration =>
    rw [if_neg (by intro hg; rw [h] at hg; simp at hg)]
    exact ⟨rfl, Or.inr (Or.inl rfl)⟩
  case update_colour =>
    rw [if_neg (by intro hg; rw [h] at hg; simp at hg)]
    exact ⟨rfl, Or.inr (Or.inl rfl)⟩
  case update_make =>
    rw [if_neg (by intro hg; rw [h] at hg; simp at hg)]
    exact ⟨rfl, Or.inr (Or.inl rfl)⟩
  case update_model =>
    rw [if_neg (by intro hg; rw [h] at hg; simp at hg)]
    exact ⟨rfl, Or.inr (Or.inl rfl)⟩
  case scrap_vehicle =>
    rw [if_neg (by intro hg; rw [h] at hg; simp at hg)]
    exact ⟨rfl, Or.inr (Or.inl rfl)⟩

/-- Witness for `scrapped_asset_rejects_all_mutations` on a concrete
scrapped asset and a concrete operation. -/
theorem scrapped_asset_rejects_all_mutations_witness :
    (applyOp .buyer_to_buyer sampleStub scrappedProduct "DVLA" 3 "Bob" 3 "x").fst =
      sampleStub ∧
    ((applyOp .buyer_to_buyer sampleStub scrappedProduct "DVLA" 3 "Bob" 3 "x").snd =
        .error "Permission Denied" ∨
     (applyOp .buyer_to_buyer sampleStub scrappedProduct "DVLA" 3 "Bob" 3 "x").snd =
        .error "Permission denied" ∨
     (Op.buyer_to_buyer = .manufacturer_to_bank ∧
       (scrappedProduct.Make = "UNDEFINED" ∨ scrappedProduct.Name = "UNDEFINED" ∨
         scrappedProduct.Reg = "UNDEFINED" ∨ scrappedProduct.Colour = "UNDEFINED" ∨
         scrappedProduct.VIN = 0) ∧
       (applyOp .buyer_to_buyer sampleStub scrappedProduct "DVLA" 3 "Bob" 3 "x").snd =
         .error "Car not fully defined")) :=
  scrapped_asset_rejects_all_mutations .buyer_to_buyer sampleStub scrappedProduct
    "DVLA" 3 "Bob" 3 "x" (by decide)

/-- C6: every mutating operation performs at most one ledger put — its
resulting entry list is the old one or the old one extended by exactly the
one updated asset record — an operation that reports an error leaves the
ledger exactly unchanged, and `create_product` (whose write path, the only
place the asset record and the `"v5cIDs"` index entry are written, is
unreachable) never changes the ledger at all, so the index entry and the
asset record are only ever written together. -/
theorem mutating_ops_single_put (op : Op) (st : Stub) (v : Product)
    (caller : String) (aff : Int) (rec : String) (recAff : Int) (nv : String) :
    ((applyOp op st v caller aff rec recAff nv).fst.entries = st.entries ∨
      ∃ p, (applyOp op st v caller aff rec recAff nv).fst.entries =
        (toString p.Product_Id, .prod p) :: st.entries) ∧
    (∀ e, (applyOp op st v caller aff rec recAff nv).snd = .error e →
      (applyOp op st v caller aff rec recAff nv).fst = st) ∧
    (∀ c1 c2 a1 a2 d pr cur con draws,
      (create_product st c1 c2 a1 a2 d pr cur con draws).fst = st) := by
  refine ⟨?_, ?_, fun c1 c2 a1 a2 d pr cur con draws =>
    create_product_fst st c1 c2 a1 a2 d pr cur con draws⟩
  · rcases applyOp_shape op st v caller aff rec recAff nv with hs | ⟨p, hs⟩
    · exact Or.inl (by rw [hs])
    · exact Or.inr ⟨p, by rw [hs]⟩
  · rcases applyOp_shape op st v caller aff rec recAff nv with hs | ⟨p, hs⟩
    · exact fun e _ => hs
    · intro e he
      rw [hs] at he
      simp at he

/-- Witness for `mutating_ops_single_put`: a denied scrap attempt on a
concrete ledger leaves it unchanged. -/
theorem mutating_ops_single_put_witness :
    (applyOp .scrap_vehicle sampleStub sampleProduct "DVLA" BUYER_BANK "r" 0 "x").fst =
      sampleStub :=
  (mutating_ops_single_put .scrap_vehicle sampleStub sampleProduct "DVLA"
    BUYER_BANK "r" 0 "x").2.1 "Permission denied" (by decide)

end Chaincode
